import Mathlib

/-!
# Verification of spHelper (src/src/spHelper.js)

A shallow embedding of the algorithmic core of the spHelper class:

* the CAML predicate compiler inside `loadListData` (lines 288-465),
* the paginated retrieval loop of `getListData` (lines 195-243),
* the result-row projection inside `loadListData`'s resolve callback
  (lines 485-524) together with its success/failure delivery channels,
* the per-column write mapping of `updateListItem` (lines 602-671) and
  `addListItem` (lines 710-795).

JavaScript strings are Lean `String`s; JavaScript values that may be a
string, a number, an array or `undefined` are modelled by small closed
sum types.  Machinery that belongs to the external SharePoint JSOM
library (`SP.*`) is modelled only at its boundary, as documented on each
definition.
-/

namespace SpHelper

/-- A JavaScript value stored in `queryDetails.where.value`: `undefined`,
a scalar (already coerced to its string form, as the code only ever
interpolates it into a template literal), or an array of scalars. -/
inductive JsVal where
  | undef
  | scalar (s : String)
  | arr (vs : List String)
deriving DecidableEq

/-- One entry of `queryDetails.where.values` (the compound-clause form,
lines 315-341): an object with `column`, `operation`, `value`, `type`. -/
structure WhereValues where
  column : String
  operation : String
  value : String
  type : String
deriving DecidableEq

/-- The `queryDetails.where` object (lines 191-192, 300-437).  `type` and
`values` are optional in the source (`typeof` guards), `value` may be
`undefined` (it is then defaulted to the empty string, lines 308-311). -/
structure SpWhere where
  column : String := ""
  operation : String := ""
  value : JsVal := JsVal.undef
  type : Option String := none
  values : Option (List WhereValues) := none

/-- Models `String.prototype.toLowerCase` on the ASCII fragment the
code compares against (`'url'`, `'lookup'`, `'user'`, `'in'`).
Implemented over the character list so that it evaluates inside the
kernel. -/
def jsToLower (s : String) : String :=
  ⟨s.data.map Char.toLower⟩

/-- Decimal-digit test used by the model of the JavaScript `isNaN`
builtin. -/
def isDigitCh (c : Char) : Bool :=
  decide ('0' ≤ c) && decide (c ≤ '9')

/-- Whitespace stripped by JavaScript number coercion. -/
def jsWhitespace (c : Char) : Bool :=
  c == ' ' || c == '\t' || c == '\n' || c == '\r'

/-- Models the JavaScript builtin test `!isNaN(s)` on a string `s`,
restricted to the plain decimal fragment actually exercised by the
code: `Number('')` (and all-whitespace strings) coerces to `0`, so the
empty string counts as numeric; otherwise the string must be an
optionally signed decimal literal (digits with at most one point).
Exotic JavaScript numeric forms (hex, exponents, `Infinity`) are outside
the model. -/
def jsIsNumeric (s : String) : Bool :=
  let t := ((s.data.dropWhile jsWhitespace).reverse.dropWhile jsWhitespace).reverse
  if t.isEmpty then
    true
  else
    let body := match t with
      | '+' :: rest => rest
      | '-' :: rest => rest
      | rest => rest
    body.any isDigitCh &&
      body.all (fun c => isDigitCh c || c == '.') &&
      (body.filter (fun c => c == '.')).length ≤ 1

/-- JavaScript template-literal coercion of a possibly-undefined string:
interpolating `undefined` prints the text `undefined` (relevant on
lines 377 and 404 where `queryDetails.where.type` is interpolated
without a `typeof` guard). -/
def jsTemplate : Option String → String
  | none => "undefined"
  | some s => s

/-- The `<Value Type='T'>v</Value>` element emitted on lines 330, 334,
377, 404 and 424. -/
def valueTag (ty v : String) : String :=
  "<Value Type=\x27" ++ ty ++ "\x27>" ++ v ++ "</Value>"

/-- The field reference carrying the lookup-by-identifier marker, as
emitted (with its leading space) on lines 393 and 415. -/
def fieldRefLookupId (column : String) : String :=
  " <FieldRef Name=\x27" ++ column ++ "\x27 LookupId=\x27TRUE\x27/>"

/-- The plain field reference, as emitted (with its leading space) on
lines 397 and 419. -/
def fieldRefPlain (column : String) : String :=
  " <FieldRef Name=\x27" ++ column ++ "\x27 />"

/-- One compiled entry of the `where.values` compound form
(lines 322-338). -/
def whereValuesEntry (v : WhereValues) : String :=
  "<" ++ v.operation ++ ">" ++
    (if jsToLower v.type = "lookup" ∧ jsIsNumeric v.value = true then
      "<FieldRef Name=\x27" ++ v.column ++ "\x27 LookupId=\x27TRUE\x27/> " ++
        valueTag v.type v.value
    else
      "<FieldRef Name=\x27" ++ v.column ++ "\x27/> " ++ valueTag v.type v.value) ++
  "</" ++ v.operation ++ ">"

/-- One `<In>` batch clause of the over-60 `In` workaround
(lines 373-380).  Note that the body of the `for` loop on line 371
iterates `queryDetails.where.value.forEach(...)` over the *entire* value
array, so every batch carries every value; the batch index `i` is never
used. -/
def inFixBatch (column : String) (ty : Option String) (vs : List String) : String :=
  "<In> <FieldRef Name=\x27" ++ column ++ "\x27 /> <Values>" ++
    String.join (vs.map (fun v => valueTag (jsTemplate ty) v)) ++
  "</Values></In>"

/-- The `<Query> <Where> ... </Where></Query>` fragment built by
`loadListData` when `queryDetails.where` is present (lines 300-438).
A `TypeError` (modelled as `Except.error`) occurs exactly where the
JavaScript would throw one: on line 391 `queryDetails.where.type
.toLowerCase()` is evaluated without a `typeof` guard, so a multi-value
non-batched clause with no `type` fails. -/
def buildWhere (w : SpWhere) : Except String String :=
  -- lines 308-311: an undefined where.value is replaced by ''.
  let wv := match w.value with
    | JsVal.undef => JsVal.scalar ""
    | v => v
  match w.values with
  | some entries =>
      -- lines 318-341: compound form driven by where.values.
      Except.ok ("<Query> <Where>" ++
        "<" ++ w.operation ++ ">" ++
        String.join (entries.map whereValuesEntry) ++
        "</" ++ w.operation ++ ">" ++
        "</Where></Query>")
  | none =>
      -- line 345: multiWhereValue is set when where.value is an array.
      match wv with
      | JsVal.arr vs =>
          -- lines 351-364: the CAML WHERE/IN fix triggers for an In
          -- operation with more than 60 values.
          if jsToLower w.operation = "in" ∧ 60 < vs.length then
            -- lines 367-382 and 431-434: batches wrapped in one <Or>.
            let batches := (vs.length + 59) / 60  -- Math.ceil(length / 60)
            Except.ok ("<Query> <Where>" ++ "<Or>" ++
              String.join (List.replicate batches (inFixBatch w.column w.type vs)) ++
              "</Or>" ++ "</Where></Query>")
          else
            -- lines 385-408: one membership clause with a <Values> list.
            match w.type with
            | none =>
                -- line 391: TypeError, toLowerCase of undefined.
                Except.error "TypeError: Cannot read properties of undefined"
            | some ty =>
                Except.ok ("<Query> <Where>" ++
                  "<" ++ w.operation ++ ">" ++
                  (if jsToLower ty = "lookup" ∧ jsIsNumeric (vs.headD "") = true ∧ vs ≠ [] then
                    fieldRefLookupId w.column
                  else
                    fieldRefPlain w.column) ++
                  "<Values>" ++
                  String.join (vs.map (fun v => valueTag (jsTemplate w.type) v)) ++
                  "</Values>" ++
                  "</" ++ w.operation ++ ">" ++
                  "</Where></Query>")
      | JsVal.scalar s =>
          -- lines 409-426: single-value leaf.
          Except.ok ("<Query> <Where>" ++
            "<" ++ w.operation ++ ">" ++
            -- line 413: marker only when a type is supplied, it is
            -- (case-insensitively) lookup, and the value is numeric.
            (match w.type with
              | some ty =>
                  if jsToLower ty = "lookup" ∧ jsIsNumeric s = true then
                    fieldRefLookupId w.column
                  else
                    fieldRefPlain w.column
              | none => fieldRefPlain w.column) ++
            -- line 422: where.value is always defined after the
            -- defaulting above, so the <Value> element is emitted
            -- exactly when where.type is defined.
            (match w.type with
              | some ty => valueTag ty s
              | none => "") ++
            "</" ++ w.operation ++ ">" ++
            "</Where></Query>")
      | JsVal.undef => Except.error "unreachable: value was defaulted"

/-- Test that the character list `p` is an initial segment of `s`. -/
def isInitSeg : List Char → List Char → Bool
  | [], _ => true
  | _ :: _, [] => false
  | p :: ps, c :: cs => p == c && isInitSeg ps cs

/-- Number of positions of `s` at which the pattern `pat` occurs
(kernel-evaluable occurrence count over character lists). -/
def countOcc (pat : List Char) : List Char → Nat
  | [] => 0
  | c :: cs => (if isInitSeg pat (c :: cs) then 1 else 0) + countOcc pat cs

/-- Number of occurrences of the pattern `pat` in the string `s`. -/
def countSub (s pat : String) : Nat :=
  countOcc pat.data s.data

/-- Substring test (used to observe marker emission in compiled
fragments). -/
def hasSub (s pat : String) : Bool :=
  0 < countSub s pat

/-- Occurrence count applied under `Except`: the count for a
successfully compiled fragment, `0` for a compile error. -/
def countSubOk (pat : String) : Except String String → Nat
  | Except.ok s => countSub s pat
  | Except.error _ => 0

/-- The lookup-by-identifier marker attribute text. -/
def lookupIdMarker : String := "LookupId=\x27TRUE\x27"

/-! ## Paginated retrieval engine (`getListData`, lines 195-243)

`getListData` mutates `queryDetails.pagePosition` in place and threads a
closure-captured accumulator `listData` through repeated `loadListData`
calls.  The embedding passes that state explicitly: the remote execution
of one `loadListData` call at cursor `pos` is abstracted as a pure
`store : Nat → List α` (the page the store returns for that cursor), and
the in-place mutation of the caller's object shows up as the descriptor
returned in the final state.  `fuel` bounds the number of iterations;
the JavaScript has no such bound (an adversarial store returning
cap-sized pages forever loops), so `none` is returned exactly when the
fuel is exhausted. -/

/-- The part of `queryDetails` read and written by the pagination loop:
`pagePosition` is `none` when the caller omitted it (line 198). -/
structure GetListQuery where
  pagePosition : Option Nat := none
deriving DecidableEq

/-- The recursive `resolve` callback of `getListData` (lines 210-234).
State: `pos` is the current `queryDetails.pagePosition`, `acc` the
closure variable `listData`, `reqs` the cursors of the requests issued
so far (most recent last).  Returns `(cursors, rows, final pagePosition)`
on completion. -/
def getListDataRun (store : Nat → List α) : Nat → Nat → List α → List Nat →
    Option (List Nat × List α × Nat)
  | 0, _, _, _ => none
  | fuel + 1, pos, acc, reqs =>
      -- line 242 / 227: loadListData is executed at the current cursor.
      let results := store pos
      -- line 212: listData = listData.concat(results)
      let acc' := acc ++ results
      let reqs' := reqs ++ [pos]
      if results.length = 5000 then
        -- lines 218-224: on the first page only, the total equals 5000,
        -- so the cursor gains an extra +1 before the +5000.
        let pos' := if acc'.length = 5000 then pos + 1 + 5000 else pos + 5000
        getListDataRun store fuel pos' acc' reqs'
      else
        -- lines 229-233: all data collected; deliver the accumulator.
        some (reqs', acc', pos)

/-- The method `getListData` (lines 195-243): defaults a missing `pagePosition` to
`0` on the caller's object, runs the paginated loop, and returns the
final state of the caller's `queryDetails` object (reflecting the
in-place mutation), the rows delivered to `onSuccessUser`, and the
cursor of every request issued. -/
def getListData (qd : GetListQuery) (store : Nat → List α) (fuel : Nat) :
    Option (GetListQuery × List α × List Nat) :=
  -- lines 198-201: set the default page position to 0 if undefined.
  let p0 := match qd.pagePosition with
    | none => 0
    | some p => p
  match getListDataRun store fuel p0 [] [] with
  | none => none
  | some (reqs, rows, finalPos) => some ({ pagePosition := some finalPos }, rows, reqs)

/-! ## Result row projection and delivery channels
(`loadListData`'s resolve/reject callbacks, lines 485-532) -/

/-- A raw list item as surfaced by the external JSOM item collection:
the fields actually present on the item, as internal name/value pairs. -/
def RawItem : Type := List (String × String)

/-- A projected row: requested column name to value, in requested
order. -/
def Row : Type := List (String × String)

/-- Modelled from the spec: the external JSOM accessor
`currentListItem.get_item(columnName)` is not part of this repository.
Per the schema/content-type resolver boundary (spec section 6) and the
source comment on lines 500-503, it yields the field value when the
column exists on the item and throws when the requested column does not
exist; the thrown message text is the external library's own and is
carried opaquely. -/
def get_item (item : RawItem) (columnName : String) : Except String String :=
  match List.lookup columnName item with
  | some v => Except.ok v
  | none => Except.error "The property or field has not been initialized."

/-- The error thrown on lines 509-516 when a requested column does not
exist, naming the offending column and the list. -/
def missingColumnMsg (listName columnName innerErr : String) : String :=
  "spHelper Error: The column \x27" ++ columnName ++ "\x27 requested from \x27" ++
    listName ++ "\x27 does not exist! Error: " ++ innerErr

/-- The per-item projection loop of `resolve` (lines 496-518): for each
requested column, in order, read the field into the row object; the
first missing column throws. -/
def projectItem (listName : String) : List String → RawItem → Except String Row
  | [], _ => Except.ok []
  | columnName :: rest, item =>
      match get_item item columnName with
      | Except.ok v =>
          (projectItem listName rest item).map (fun row => (columnName, v) :: row)
      | Except.error innerErr =>
          Except.error (missingColumnMsg listName columnName innerErr)

/-- The item loop of `resolve` (lines 491-521): project every returned
item; a throw aborts the whole page. -/
def projectItems (listName : String) (cols : List String) (items : List RawItem) :
    Except String (List Row) :=
  items.mapM (projectItem listName cols)

/-- What the remote execution primitive hands back for one request:
either a raw page of items (the `resolve` path) or a rejection carrying
`args.get_message()` (the `reject` path, lines 527-530). -/
inductive RemoteResult where
  | page (items : List RawItem)
  | rejected (msg : String)

/-- How one `loadListData` request terminates, as observed by the
caller: `success rows` is `onSuccess(returnedItems)` (line 523),
`failure msg` is `onFailure(args.get_message())` (line 529) — the
failure callback channel — and `thrown msg` is an exception escaping the
asynchronous `resolve` callback (lines 511 and 515), which reaches
neither callback. -/
inductive LoadOutcome where
  | success (rows : List Row)
  | failure (msg : String)
  | thrown (msg : String)

/-- Delivery of one remote result by `loadListData`'s callbacks: a
rejection goes to the failure callback, a page is projected, and a
projection error is thrown out of `resolve`. -/
def loadListDataDeliver (listName : String) (cols : List String) :
    RemoteResult → LoadOutcome
  | RemoteResult.rejected msg => LoadOutcome.failure msg
  | RemoteResult.page items =>
      match projectItems listName cols items with
      | Except.ok rows => LoadOutcome.success rows
      | Except.error msg => LoadOutcome.thrown msg

/-- Whether an outcome was delivered through the caller's failure
callback (`onFailureUser`). -/
def viaFailureCallback : LoadOutcome → Bool
  | LoadOutcome.failure _ => true
  | _ => false

/-- Whether `getListData`'s resolve callback issues another request
after this outcome (line 215: only a success whose page size equals
5000 causes a further `loadListData` call). -/
def issuesFurtherRequest : LoadOutcome → Bool
  | LoadOutcome.success rows => rows.length == 5000
  | _ => false

/-! ## Column value mapping for the write paths
(`updateListItem` lines 602-671, `addListItem` lines 710-795) -/

/-- A scalar element of a `columnData` array value (lookup identifiers,
choice strings, user identity strings): a string or a number. -/
inductive FieldScalar where
  | str (s : String)
  | num (n : Int)
deriving DecidableEq

/-- A JavaScript value supplied in a `columnData` descriptor field
(`Value`, `URL`, `Description`, `LookupID`): a string, a number, an
array of scalars (the forms the documented descriptors use), or
absent. -/
inductive FieldInput where
  | undef
  | str (s : String)
  | num (n : Int)
  | arr (xs : List FieldScalar)
deriving DecidableEq

/-- One entry of `columnData`: the declared type tag and the
type-dependent payload fields (see the example object on
lines 552-585).  `Type` is a Lean keyword, hence the primed field
name. -/
structure ColumnData where
  Type' : String
  Value : FieldInput := FieldInput.undef
  URL : FieldInput := FieldInput.undef
  Description : FieldInput := FieldInput.undef
  LookupID : FieldInput := FieldInput.undef
deriving DecidableEq

/-- The typed value handed to the external `spItem.set_item` for one
column: an `SP.FieldUrlValue`, a single `SP.FieldLookupValue`, an array
of lookup values, an array of `SP.FieldUserValue`s, the literal `null`
(field clear), or the raw descriptor value passed through. -/
inductive FieldValue where
  | urlField (url description : FieldInput)
  | lookupField (lookupId : FieldInput)
  | lookupFieldList (lookupIds : List FieldScalar)
  | userFieldList (users : List FieldScalar)
  | jsNull
  | rawValue (v : FieldInput)
deriving DecidableEq

/-- Modelled from the spec: the external `SP.FieldUrlValue` container
(`set_url` / `set_description`) is SharePoint library code, not part of
this repository.  Per the spec invariant that a Url column requires both
`url` and `description` (never silently defaulted), setting an absent
(`undefined`) component fails, which the surrounding `try`/`catch` in
the source converts into the field-mapping error. -/
def spFieldUrlValue : FieldInput → FieldInput → Option FieldValue
  | FieldInput.undef, _ => none
  | _, FieldInput.undef => none
  | u, d => some (FieldValue.urlField u d)

/-- The `user` branch shared verbatim by both write paths
(lines 644-665 and 768-789): a string identity becomes a one-element
user list, an array becomes one user per element in order, and anything
else makes the JavaScript throw (`.constructor` of `undefined`, or
`forEach` on a number). -/
def userFieldBranch : FieldInput → Except String FieldValue
  | FieldInput.str s => Except.ok (FieldValue.userFieldList [FieldScalar.str s])
  | FieldInput.arr xs => Except.ok (FieldValue.userFieldList xs)
  | _ => Except.error "TypeError: user value is neither a string nor an array"

/-- The per-column body of the `updateListItem` loop (lines 602-671):
maps one `columnData` entry to the typed value passed to `set_item`. -/
def updateListItemMapColumn (cd : ColumnData) : Except String FieldValue :=
  if jsToLower cd.Type' = "url" then
    -- lines 605-620
    match spFieldUrlValue cd.URL cd.Description with
    | some f => Except.ok f
    | none => Except.error "spHelper Error: Invalid URL field details. Unable to update item ... "
  else if jsToLower cd.Type' = "lookup" then
    -- lines 622-643: any LookupID other than the empty string becomes a
    -- single SP.FieldLookupValue; the empty string clears the field.
    if cd.LookupID ≠ FieldInput.str "" then
      Except.ok (FieldValue.lookupField cd.LookupID)
    else
      Except.ok FieldValue.jsNull
  else if jsToLower cd.Type' = "user" then
    -- lines 644-665
    userFieldBranch cd.Value
  else
    -- line 669: normal fields pass the raw value through.
    Except.ok (FieldValue.rawValue cd.Value)

/-- The per-column body of the `addListItem` loop (lines 710-795). -/
def addListItemMapColumn (cd : ColumnData) : Except String FieldValue :=
  if jsToLower cd.Type' = "url" then
    -- lines 713-729
    match spFieldUrlValue cd.URL cd.Description with
    | some f => Except.ok f
    | none => Except.error "spHelper Error: Invalid URL field details. Unable to add item ... "
  else if jsToLower cd.Type' = "lookup" then
    -- lines 731-767: a Number or String LookupID becomes a single
    -- SP.FieldLookupValue; anything with another constructor is
    -- iterated with forEach, one lookup value per element; LookupID
    -- `undefined` makes `.constructor` throw, which the catch turns
    -- into the lookup field error.
    match cd.LookupID with
    | FieldInput.num n => Except.ok (FieldValue.lookupField (FieldInput.num n))
    | FieldInput.str s => Except.ok (FieldValue.lookupField (FieldInput.str s))
    | FieldInput.arr xs => Except.ok (FieldValue.lookupFieldList xs)
    | FieldInput.undef =>
        Except.error "spHelper Error: Invalid Lookup field details. Unable to add item ... "
  else if jsToLower cd.Type' = "user" then
    -- lines 768-789
    userFieldBranch cd.Value
  else
    -- line 793
    Except.ok (FieldValue.rawValue cd.Value)

instance {ε α : Type} [DecidableEq ε] [DecidableEq α] : DecidableEq (Except ε α) := fun a b => by
  cases a <;> cases b
  case error.error x y =>
    exact if h : x = y then isTrue (by simp [h]) else isFalse (by simp [h])
  case error.ok x y => exact isFalse (by simp)
  case ok.error x y => exact isFalse (by simp)
  case ok.ok x y =>
    exact if h : x = y then isTrue (by simp [h]) else isFalse (by simp [h])

/-- Two mapping results agree as typed field values: both succeed with
the same value, or both fail (the failure texts differ only in the
`update item` / `add item` wording of the rethrown message). -/
def mapResultsAgree : Except String FieldValue → Except String FieldValue → Prop
  | Except.ok a, Except.ok b => a = b
  | Except.error _, Except.error _ => True
  | _, _ => False

/-! ## Concrete inputs used by the theorems -/

/-- Sixty-one distinct values, `"0"` .. `"60"`: one more than the
store's membership arity cap. -/
def vals61 : List String := (List.range 61).map toString

/-- An `In` leaf whose value sequence has 61 elements, triggering the
over-60 batching workaround. -/
def inOver60Where : SpWhere :=
  { column := "C", operation := "In", value := JsVal.arr vals61, type := some "Text" }

/-- The empty string is numeric to JavaScript: `Number('')` is `0`. -/
theorem jsIsNumeric_empty : jsIsNumeric "" = true := rfl

end SpHelper

namespace SpHelper

/-! ## Claims -/

set_option maxRecDepth 10000 in
/-- C1. The claim states that for an `In` leaf with `N > 60` values
the compiler emits `ceil(N/60)` membership clauses whose value sets
partition the original values in order without loss or duplication.  The
code computes the batch count but then iterates the *whole* value array
inside every batch (the loop index on line 371 is unused), contradicting
the workaround documented in its own comment (lines 353-355: at most 60
values per membership clause).  At the failing input of 61 values the
compiled predicate is one `<Or>` holding two identical `<In>` clauses,
each carrying all 61 values — 122 value elements in total instead of a
60/1 partition, and each clause still over the 60-value cap. -/
theorem claim_C1_batching_failing_input :
    buildWhere inOver60Where =
      Except.ok ("<Query> <Where>" ++ "<Or>" ++
        String.join (List.replicate 2 (inFixBatch "C" (some "Text") vals61)) ++
        "</Or>" ++ "</Where></Query>")
    ∧ vals61.length = 61
    ∧ (vals61.map (valueTag "Text")).length = 61
    ∧ inFixBatch "C" (some "Text") vals61 =
        "<In> <FieldRef Name=\x27C\x27 /> <Values>" ++
          String.join (vals61.map (fun v => valueTag (jsTemplate (some "Text")) v)) ++
        "</Values></In>" := by
  exact ⟨rfl, by simp [vals61], by simp [vals61], rfl⟩

set_option maxRecDepth 10000 in
/-- C7. For a single-value leaf whose `valueType` is (case-
insensitively) `Lookup`, the compiled field reference carries the
`LookupId='TRUE'` marker exactly when the comparison value is numeric;
a non-numeric value compiles to a plain field reference.  The concrete
conjuncts check the spec's own examples `"42"` and `"Engineering"`. -/
theorem claim_C7_lookup_marker (col op v ty : String) (hty : jsToLower ty = "lookup") :
    buildWhere { column := col, operation := op, value := JsVal.scalar v, type := some ty } =
      Except.ok ("<Query> <Where>" ++ "<" ++ op ++ ">" ++
        (if jsIsNumeric v = true then fieldRefLookupId col else fieldRefPlain col) ++
        valueTag ty v ++ "</" ++ op ++ ">" ++ "</Where></Query>")
    ∧ countSubOk lookupIdMarker
        (buildWhere { column := "Dept", operation := "Eq",
                      value := JsVal.scalar "42", type := some "Lookup" }) = 1
    ∧ countSubOk lookupIdMarker
        (buildWhere { column := "Dept", operation := "Eq",
                      value := JsVal.scalar "Engineering", type := some "Lookup" }) = 0 := by
  refine ⟨?_, by decide, by decide⟩
  by_cases hv : jsIsNumeric v = true <;> simp [buildWhere, hty, hv]

/-- Witness for C7 at `valueType = "Lookup"`, value `"42"`. -/
theorem claim_C7_lookup_marker_witness :
    jsToLower "Lookup" = "lookup"
    ∧ (buildWhere { column := "Dept", operation := "Eq",
                    value := JsVal.scalar "42", type := some "Lookup" } =
        Except.ok ("<Query> <Where>" ++ "<" ++ "Eq" ++ ">" ++
          (if jsIsNumeric "42" = true then fieldRefLookupId "Dept" else fieldRefPlain "Dept") ++
          valueTag "Lookup" "42" ++ "</" ++ "Eq" ++ ">" ++ "</Where></Query>")
      ∧ countSubOk lookupIdMarker
          (buildWhere { column := "Dept", operation := "Eq",
                        value := JsVal.scalar "42", type := some "Lookup" }) = 1
      ∧ countSubOk lookupIdMarker
          (buildWhere { column := "Dept", operation := "Eq",
                        value := JsVal.scalar "Engineering", type := some "Lookup" }) = 0) :=
  ⟨rfl, claim_C7_lookup_marker "Dept" "Eq" "42" "Lookup" rfl⟩

/-- C8 counterexample. The claim states that a leaf with an omitted
or empty value compiles to a field reference with *no* value element
"regardless of whether a type tag is supplied".  With a type tag
supplied the code does emit a value element (line 422 only tests that
`where.type` and `where.value` are defined, and the omitted value was
already defaulted to `''` on line 310): an empty
`<Value Type='Text'></Value>` appears. -/
theorem claim_C8_counterexample :
    buildWhere { column := "Status", operation := "IsNull",
                 value := JsVal.undef, type := some "Text" } =
      Except.ok ("<Query> <Where><IsNull> <FieldRef Name=\x27Status\x27 />" ++
        "<Value Type=\x27Text\x27></Value></IsNull></Where></Query>")
    ∧ countSubOk "<Value"
        (buildWhere { column := "Status", operation := "IsNull",
                      value := JsVal.undef, type := some "Text" }) = 1 := by
  exact ⟨rfl, rfl⟩

/-- C8 amended. A leaf with an omitted or empty value always emits a
field reference for its column; the value element is omitted exactly
when the type tag is *also* omitted.  When a type tag is supplied, an
empty value element `<Value Type='T'></Value>` is emitted — and since
the empty string is numeric to JavaScript, a `Lookup` type tag
additionally puts the lookup-by-identifier marker on the field
reference. -/
theorem claim_C8_amended (col op : String) :
    buildWhere { column := col, operation := op, value := JsVal.undef, type := none } =
      Except.ok ("<Query> <Where>" ++ "<" ++ op ++ ">" ++ fieldRefPlain col ++ "" ++
        "</" ++ op ++ ">" ++ "</Where></Query>")
    ∧ buildWhere { column := col, operation := op, value := JsVal.scalar "", type := none } =
        Except.ok ("<Query> <Where>" ++ "<" ++ op ++ ">" ++ fieldRefPlain col ++ "" ++
          "</" ++ op ++ ">" ++ "</Where></Query>")
    ∧ (∀ ty : String,
        buildWhere { column := col, operation := op, value := JsVal.undef, type := some ty } =
          Except.ok ("<Query> <Where>" ++ "<" ++ op ++ ">" ++
            (if jsToLower ty = "lookup" then fieldRefLookupId col else fieldRefPlain col) ++
            valueTag ty "" ++ "</" ++ op ++ ">" ++ "</Where></Query>"))
    ∧ (∀ ty : String,
        buildWhere { column := col, operation := op, value := JsVal.scalar "", type := some ty } =
          Except.ok ("<Query> <Where>" ++ "<" ++ op ++ ">" ++
            (if jsToLower ty = "lookup" then fieldRefLookupId col else fieldRefPlain col) ++
            valueTag ty "" ++ "</" ++ op ++ ">" ++ "</Where></Query>")) := by
  refine ⟨rfl, rfl, ?_, ?_⟩ <;>
    · intro ty
      by_cases hty : jsToLower ty = "lookup" <;> simp [buildWhere, hty, jsIsNumeric_empty]

set_option maxRecDepth 10000 in
/-- C10. When the over-60 batching workaround triggers, every batch
clause uses a plain `<FieldRef Name='c' />` (lines 373): the compiled
output is the `<Or>` of `ceil(N/60)` copies of `inFixBatch`, whose field
reference carries no `LookupId` marker — even for a `Lookup`-typed leaf
with all-numeric values, as the concrete conjunct checks on 61 numeric
values. -/
theorem claim_C10_in_fix_no_marker (col op ty : String) (vs : List String)
    (hop : jsToLower op = "in") (hlen : 60 < vs.length) :
    buildWhere { column := col, operation := op, value := JsVal.arr vs, type := some ty } =
      Except.ok ("<Query> <Where>" ++ "<Or>" ++
        String.join (List.replicate ((vs.length + 59) / 60) (inFixBatch col (some ty) vs)) ++
        "</Or>" ++ "</Where></Query>")
    ∧ hasSub (inFixBatch "Dept" (some "Lookup") ["1", "2", "3"]) lookupIdMarker = false
    ∧ (jsToLower "Lookup" = "lookup" ∧ jsIsNumeric "1" = true
        ∧ jsIsNumeric "2" = true ∧ jsIsNumeric "3" = true) := by
  refine ⟨?_, by decide, by decide⟩
  simp [buildWhere, hop, hlen]

/-- Witness for C10 at a 61-value numeric `Lookup` leaf. -/
theorem claim_C10_in_fix_no_marker_witness :
    jsToLower "In" = "in"
    ∧ 60 < vals61.length
    ∧ (buildWhere { column := "Dept", operation := "In",
                    value := JsVal.arr vals61, type := some "Lookup" } =
        Except.ok ("<Query> <Where>" ++ "<Or>" ++
          String.join (List.replicate ((vals61.length + 59) / 60)
            (inFixBatch "Dept" (some "Lookup") vals61)) ++
          "</Or>" ++ "</Where></Query>")
      ∧ hasSub (inFixBatch "Dept" (some "Lookup") ["1", "2", "3"]) lookupIdMarker = false
      ∧ (jsToLower "Lookup" = "lookup" ∧ jsIsNumeric "1" = true
          ∧ jsIsNumeric "2" = true ∧ jsIsNumeric "3" = true)) :=
  ⟨rfl, by simp [vals61], claim_C10_in_fix_no_marker "Dept" "In" "Lookup" vals61 rfl (by simp [vals61])⟩

/-- A store for the pagination scenario: pages of sizes 5000, 5000 and
3217 at the documented cursors, rows tagged by page so concatenation
order is observable. -/
def pagedStoreExample : Nat → List (Nat × Nat) := fun pos =>
  if pos = 0 then (List.range 5000).map (fun i => (0, i))
  else if pos = 5001 then (List.range 5000).map (fun i => (1, i))
  else if pos = 10001 then (List.range 3217).map (fun i => (2, i))
  else []

/-- A store whose first page is exactly the cap and whose second page is
a single row. -/
def twoPageStoreExample : Nat → List Nat := fun pos =>
  if pos = 0 then List.range 5000 else [7]

/-- C2. For any store returning pages of sizes 5000, 5000, 3217 at
cursors 0, 5001, 10001, the engine issues exactly three requests with
those cursors, delivers the 13217 rows concatenated in request order,
and in general one extra iteration happens exactly when the returned
page's size equals the 5000 cap: a sub-cap page stops the loop after the
single request (fourth conjunct), while a cap-sized page makes the
resolve callback re-invoke `loadListData` at the advanced cursor (fifth
conjunct). -/
theorem claim_C2_pagination (α : Type) (store : Nat → List α)
    (h0 : (store 0).length = 5000) (h1 : (store 5001).length = 5000)
    (h2 : (store 10001).length = 3217) :
    getListData { pagePosition := some 0 } store 3 =
      some ({ pagePosition := some 10001 }, store 0 ++ store 5001 ++ store 10001, [0, 5001, 10001])
    ∧ (store 0 ++ store 5001 ++ store 10001).length = 13217
    ∧ [0, 5001, 10001].length = 3
    ∧ (∀ (st : Nat → List α) (pos : Nat), (st pos).length ≠ 5000 →
        getListData { pagePosition := some pos } st 1 =
          some ({ pagePosition := some pos }, st pos, [pos]))
    ∧ (∀ (st : Nat → List α) (fuel pos : Nat) (acc : List α) (reqs : List Nat),
        (st pos).length = 5000 →
        getListDataRun st (fuel + 1) pos acc reqs =
          getListDataRun st fuel
            (if (acc ++ st pos).length = 5000 then pos + 1 + 5000 else pos + 5000)
            (acc ++ st pos) (reqs ++ [pos])) := by
  refine ⟨?_, ?_, rfl, ?_, ?_⟩
  · simp [getListData, getListDataRun, h0, h1, h2, List.length_append]
  · simp [List.length_append, h0, h1, h2]
  · intro st pos h
    simp [getListData, getListDataRun, h]
  · intro st fuel pos acc reqs h
    simp [getListDataRun, h]

/-- Witness for C2 at the concrete paged store. -/
theorem claim_C2_pagination_witness :
    (pagedStoreExample 0).length = 5000
    ∧ (pagedStoreExample 5001).length = 5000
    ∧ (pagedStoreExample 10001).length = 3217
    ∧ (getListData { pagePosition := some 0 } pagedStoreExample 3 =
        some ({ pagePosition := some 10001 },
          pagedStoreExample 0 ++ pagedStoreExample 5001 ++ pagedStoreExample 10001,
          [0, 5001, 10001])
      ∧ (pagedStoreExample 0 ++ pagedStoreExample 5001 ++ pagedStoreExample 10001).length = 13217
      ∧ [0, 5001, 10001].length = 3
      ∧ (∀ (st : Nat → List (Nat × Nat)) (pos : Nat), (st pos).length ≠ 5000 →
          getListData { pagePosition := some pos } st 1 =
            some ({ pagePosition := some pos }, st pos, [pos]))
      ∧ (∀ (st : Nat → List (Nat × Nat)) (fuel pos : Nat) (acc : List (Nat × Nat)) (reqs : List Nat),
          (st pos).length = 5000 →
          getListDataRun st (fuel + 1) pos acc reqs =
            getListDataRun st fuel
              (if (acc ++ st pos).length = 5000 then pos + 1 + 5000 else pos + 5000)
              (acc ++ st pos) (reqs ++ [pos]))) := by
  have h0 : (pagedStoreExample 0).length = 5000 := by simp [pagedStoreExample]
  have h1 : (pagedStoreExample 5001).length = 5000 := by simp [pagedStoreExample]
  have h2 : (pagedStoreExample 10001).length = 3217 := by simp [pagedStoreExample]
  exact ⟨h0, h1, h2, claim_C2_pagination (Nat × Nat) pagedStoreExample h0 h1 h2⟩

/-- C9. Retrieval is not side-effect-free on its input: a missing
`pagePosition` is written as `0` on the caller's descriptor before the
first request (third conjunct: running with `none` is the same as
running with `some 0`), every continuation overwrites the same field
with the next cursor, and after a two-page retrieval the caller's
descriptor holds `5001` — the cursor of the last request — rather than
its original (absent) value. -/
theorem claim_C9_descriptor_mutation (α : Type) (store : Nat → List α)
    (h0 : (store 0).length = 5000) (h1 : (store 5001).length ≠ 5000) :
    getListData { pagePosition := none } store 2 =
      some ({ pagePosition := some 5001 }, store 0 ++ store 5001, [0, 5001])
    ∧ ({ pagePosition := some 5001 } : GetListQuery) ≠ { pagePosition := none }
    ∧ (∀ (st : Nat → List α) (fuel : Nat),
        getListData { pagePosition := none } st fuel =
          getListData { pagePosition := some 0 } st fuel) := by
  refine ⟨?_, by decide, ?_⟩
  · simp [getListData, getListDataRun, h0, h1, List.length_append]
  · intro st fuel
    rfl

/-- Witness for C9 at the concrete two-page store. -/
theorem claim_C9_descriptor_mutation_witness :
    (twoPageStoreExample 0).length = 5000
    ∧ (twoPageStoreExample 5001).length ≠ 5000
    ∧ (getListData { pagePosition := none } twoPageStoreExample 2 =
        some ({ pagePosition := some 5001 },
          twoPageStoreExample 0 ++ twoPageStoreExample 5001, [0, 5001])
      ∧ ({ pagePosition := some 5001 } : GetListQuery) ≠ { pagePosition := none }
      ∧ (∀ (st : Nat → List Nat) (fuel : Nat),
          getListData { pagePosition := none } st fuel =
            getListData { pagePosition := some 0 } st fuel)) := by
  have h0 : (twoPageStoreExample 0).length = 5000 := by simp [twoPageStoreExample]
  have h1 : (twoPageStoreExample 5001).length ≠ 5000 := by simp [twoPageStoreExample]
  exact ⟨h0, h1, claim_C9_descriptor_mutation Nat twoPageStoreExample h0 h1⟩

/-- C3 counterexample. The claim states the create and update paths
map every column-value descriptor to the same typed field value.  On
a `Lookup` descriptor with the empty-string `LookupID` the update path clears the
field (`null`) while the add path constructs a lookup reference carrying
the empty identifier: the two mappings differ. -/
theorem claim_C3_counterexample :
    updateListItemMapColumn { Type' := "Lookup", LookupID := FieldInput.str "" }
      ≠ addListItemMapColumn { Type' := "Lookup", LookupID := FieldInput.str "" }
    ∧ updateListItemMapColumn { Type' := "Lookup", LookupID := FieldInput.str "" }
        = Except.ok FieldValue.jsNull
    ∧ addListItemMapColumn { Type' := "Lookup", LookupID := FieldInput.str "" }
        = Except.ok (FieldValue.lookupField (FieldInput.str "")) := by
  exact ⟨by decide, by decide, by decide⟩

/-- C3 amended. The create and update paths agree on every column
descriptor whose type tag is not (case-insensitively) `Lookup`: the Url,
User and pass-through branches produce the same typed field value (or
both fail).  Only the Lookup branch differs between the two paths (see
C5). -/
theorem claim_C3_amended (cd : ColumnData) (h : jsToLower cd.Type' ≠ "lookup") :
    mapResultsAgree (updateListItemMapColumn cd) (addListItemMapColumn cd) := by
  unfold updateListItemMapColumn addListItemMapColumn
  by_cases hu : jsToLower cd.Type' = "url"
  · simp only [hu, if_pos]
    cases spFieldUrlValue cd.URL cd.Description <;> simp [mapResultsAgree]
  · simp only [hu, h, if_neg, if_false]
    by_cases hs : jsToLower cd.Type' = "user"
    · simp only [hs, if_pos]
      cases hb : userFieldBranch cd.Value <;> simp [mapResultsAgree]
    · simp [hs, mapResultsAgree]

/-- Witness for the amended C3 at a plain Text descriptor. -/
theorem claim_C3_amended_witness :
    jsToLower "Text" ≠ "lookup"
    ∧ mapResultsAgree
        (updateListItemMapColumn { Type' := "Text", Value := FieldInput.str "v" })
        (addListItemMapColumn { Type' := "Text", Value := FieldInput.str "v" }) :=
  ⟨by decide, claim_C3_amended { Type' := "Text", Value := FieldInput.str "v" } (by decide)⟩

/-- C5 counterexample. The claim states that on every write path a
Lookup sequence `[3,7,9]` expands to one reference per element and an
empty identifier clears the field.  The update path does neither expand
(it wraps the whole array in a single reference), and the add path does
not clear on the empty identifier (it builds a reference with the empty
identifier). -/
theorem claim_C5_counterexample :
    updateListItemMapColumn { Type' := "Lookup",
                              LookupID := FieldInput.arr [FieldScalar.num 3, FieldScalar.num 7, FieldScalar.num 9] }
      = Except.ok (FieldValue.lookupField
          (FieldInput.arr [FieldScalar.num 3, FieldScalar.num 7, FieldScalar.num 9]))
    ∧ updateListItemMapColumn { Type' := "Lookup",
                                LookupID := FieldInput.arr [FieldScalar.num 3, FieldScalar.num 7, FieldScalar.num 9] }
        ≠ Except.ok (FieldValue.lookupFieldList [FieldScalar.num 3, FieldScalar.num 7, FieldScalar.num 9])
    ∧ addListItemMapColumn { Type' := "Lookup", LookupID := FieldInput.str "" }
        = Except.ok (FieldValue.lookupField (FieldInput.str ""))
    ∧ addListItemMapColumn { Type' := "Lookup", LookupID := FieldInput.str "" }
        ≠ Except.ok FieldValue.jsNull := by
  exact ⟨by decide, by decide, by decide, by decide⟩

/-- C5 amended. The two halves of the claim hold on one path each:
the add path expands a Lookup identifier sequence to one reference per
element in original order, and the update path clears the field on an
empty identifier; but the update path wraps a sequence in a single
reference instead of expanding it, and the add path maps an empty
identifier to a single reference with the empty identifier instead of
clearing. -/
theorem claim_C5_amended :
    (∀ xs : List FieldScalar,
      addListItemMapColumn { Type' := "Lookup", LookupID := FieldInput.arr xs }
        = Except.ok (FieldValue.lookupFieldList xs))
    ∧ updateListItemMapColumn { Type' := "Lookup", LookupID := FieldInput.str "" }
        = Except.ok FieldValue.jsNull
    ∧ (∀ xs : List FieldScalar,
        updateListItemMapColumn { Type' := "Lookup", LookupID := FieldInput.arr xs }
          = Except.ok (FieldValue.lookupField (FieldInput.arr xs)))
    ∧ addListItemMapColumn { Type' := "Lookup", LookupID := FieldInput.str "" }
        = Except.ok (FieldValue.lookupField (FieldInput.str "")) := by
  refine ⟨fun xs => rfl, by decide, fun xs => rfl, by decide⟩

/-- C6. On both write paths a `Url` descriptor with both `URL` and
`Description` present maps to a structure exposing both unchanged, and
the absence of either component fails with the field-mapping error —
nothing is silently defaulted.  The failure half rests on the
spec-modelled behaviour of the external `SP.FieldUrlValue` setters
(see `spFieldUrlValue`). -/
theorem claim_C6_url_mapping (u d : FieldInput)
    (hu : u ≠ FieldInput.undef) (hd : d ≠ FieldInput.undef) :
    updateListItemMapColumn { Type' := "Url", URL := u, Description := d }
      = Except.ok (FieldValue.urlField u d)
    ∧ addListItemMapColumn { Type' := "Url", URL := u, Description := d }
      = Except.ok (FieldValue.urlField u d)
    ∧ (∀ u' : FieldInput,
        updateListItemMapColumn { Type' := "Url", URL := u' }
          = Except.error "spHelper Error: Invalid URL field details. Unable to update item ... ")
    ∧ (∀ d' : FieldInput,
        updateListItemMapColumn { Type' := "Url", Description := d' }
          = Except.error "spHelper Error: Invalid URL field details. Unable to update item ... ")
    ∧ (∀ u' : FieldInput,
        addListItemMapColumn { Type' := "Url", URL := u' }
          = Except.error "spHelper Error: Invalid URL field details. Unable to add item ... ")
    ∧ (∀ d' : FieldInput,
        addListItemMapColumn { Type' := "Url", Description := d' }
          = Except.error "spHelper Error: Invalid URL field details. Unable to add item ... ") := by
  have hty : jsToLower "Url" = "url" := rfl
  have hok : spFieldUrlValue u d = some (FieldValue.urlField u d) := by
    cases u <;> cases d <;> simp [spFieldUrlValue] <;> simp_all
  refine ⟨?_, ?_, ?_, ?_, ?_, ?_⟩
  · simp [updateListItemMapColumn, hty, hok]
  · simp [addListItemMapColumn, hty, hok]
  · intro u'; cases u' <;> simp [updateListItemMapColumn, hty, spFieldUrlValue]
  · intro d'; simp [updateListItemMapColumn, hty, spFieldUrlValue]
  · intro u'; cases u' <;> simp [addListItemMapColumn, hty, spFieldUrlValue]
  · intro d'; simp [addListItemMapColumn, hty, spFieldUrlValue]

/-- Witness for C6 at the spec example: a Url descriptor with URL
`http://x` and Description `x`. -/
theorem claim_C6_url_mapping_witness :
    (FieldInput.str "http://x" ≠ FieldInput.undef)
    ∧ (FieldInput.str "x" ≠ FieldInput.undef)
    ∧ (updateListItemMapColumn { Type' := "Url", URL := FieldInput.str "http://x",
                                 Description := FieldInput.str "x" }
        = Except.ok (FieldValue.urlField (FieldInput.str "http://x") (FieldInput.str "x"))
      ∧ addListItemMapColumn { Type' := "Url", URL := FieldInput.str "http://x",
                               Description := FieldInput.str "x" }
        = Except.ok (FieldValue.urlField (FieldInput.str "http://x") (FieldInput.str "x"))
      ∧ (∀ u' : FieldInput,
          updateListItemMapColumn { Type' := "Url", URL := u' }
            = Except.error "spHelper Error: Invalid URL field details. Unable to update item ... ")
      ∧ (∀ d' : FieldInput,
          updateListItemMapColumn { Type' := "Url", Description := d' }
            = Except.error "spHelper Error: Invalid URL field details. Unable to update item ... ")
      ∧ (∀ u' : FieldInput,
          addListItemMapColumn { Type' := "Url", URL := u' }
            = Except.error "spHelper Error: Invalid URL field details. Unable to add item ... ")
      ∧ (∀ d' : FieldInput,
          addListItemMapColumn { Type' := "Url", Description := d' }
            = Except.error "spHelper Error: Invalid URL field details. Unable to add item ... ")) :=
  ⟨by decide, by decide,
    claim_C6_url_mapping (FieldInput.str "http://x") (FieldInput.str "x") (by decide) (by decide)⟩

/-- C4 counterexample. The claim states a missing requested column
is reported through the caller's failure callback.  At a concrete page
whose item lacks the requested column `Owner`, the outcome is a thrown
exception escaping the resolve callback — it never reaches the failure
callback. -/
theorem claim_C4_counterexample :
    loadListDataDeliver "Tasks" ["Title", "Owner"]
        (RemoteResult.page [[("Title", "design")]])
      = LoadOutcome.thrown
          (missingColumnMsg "Tasks" "Owner" "The property or field has not been initialized.")
    ∧ viaFailureCallback
        (loadListDataDeliver "Tasks" ["Title", "Owner"]
          (RemoteResult.page [[("Title", "design")]])) = false := by
  exact ⟨rfl, rfl⟩

/-- C4 amended. When a requested column is absent from the returned
items, the page is aborted with zero rows delivered, the error message
names the list identifier and the offending column
(`missingColumnMsg`), no further request is issued, and the error is not
silently swallowed — but it is raised as an exception thrown from the
resolve callback, not routed to the caller's failure callback; only
remote rejections use that channel (last conjunct). -/
theorem claim_C4_amended (listName : String) (cols : List String)
    (items : List RawItem) (m : String)
    (h : projectItems listName cols items = Except.error m) :
    loadListDataDeliver listName cols (RemoteResult.page items) = LoadOutcome.thrown m
    ∧ viaFailureCallback (loadListDataDeliver listName cols (RemoteResult.page items)) = false
    ∧ (∀ rows, loadListDataDeliver listName cols (RemoteResult.page items)
        ≠ LoadOutcome.success rows)
    ∧ issuesFurtherRequest (loadListDataDeliver listName cols (RemoteResult.page items)) = false
    ∧ (∀ (c : String) (rest : List String) (item : RawItem) (innerErr : String),
        get_item item c = Except.error innerErr →
        projectItem listName (c :: rest) item
          = Except.error (missingColumnMsg listName c innerErr))
    ∧ (∀ msg, loadListDataDeliver listName cols (RemoteResult.rejected msg)
        = LoadOutcome.failure msg) := by
  refine ⟨?_, ?_, ?_, ?_, ?_, ?_⟩
  · simp [loadListDataDeliver, h]
  · simp [loadListDataDeliver, h, viaFailureCallback]
  · intro rows; simp [loadListDataDeliver, h]
  · simp [loadListDataDeliver, h, issuesFurtherRequest]
  · intro c rest item innerErr hget
    simp [projectItem, hget]
  · intro msg; rfl

/-- Witness for the amended C4: requesting columns `A` and `B` from a
page whose only item has just `A`. -/
theorem claim_C4_amended_witness :
    projectItems "Projects" ["A", "B"] [[("A", "1")]]
      = Except.error
          (missingColumnMsg "Projects" "B" "The property or field has not been initialized.")
    ∧ (loadListDataDeliver "Projects" ["A", "B"] (RemoteResult.page [[("A", "1")]])
        = LoadOutcome.thrown
            (missingColumnMsg "Projects" "B" "The property or field has not been initialized.")
      ∧ viaFailureCallback
          (loadListDataDeliver "Projects" ["A", "B"] (RemoteResult.page [[("A", "1")]])) = false
      ∧ (∀ rows, loadListDataDeliver "Projects" ["A", "B"] (RemoteResult.page [[("A", "1")]])
          ≠ LoadOutcome.success rows)
      ∧ issuesFurtherRequest
          (loadListDataDeliver "Projects" ["A", "B"] (RemoteResult.page [[("A", "1")]])) = false
      ∧ (∀ (c : String) (rest : List String) (item : RawItem) (innerErr : String),
          get_item item c = Except.error innerErr →
          projectItem "Projects" (c :: rest) item
            = Except.error (missingColumnMsg "Projects" c innerErr))
      ∧ (∀ msg, loadListDataDeliver "Projects" ["A", "B"] (RemoteResult.rejected msg)
          = LoadOutcome.failure msg)) := by
  have h : projectItems "Projects" ["A", "B"] [[("A", "1")]]
      = Except.error
          (missingColumnMsg "Projects" "B" "The property or field has not been initialized.") := rfl
  exact ⟨h, claim_C4_amended "Projects" ["A", "B"] [[("A", "1")]] _ h⟩

end SpHelper
